import Mathlib

/-!
Verification development for the `explib` experiment-running harness
(`explib/base.py`): configuration bags (`Option`), experiment profiles
(`expProfile`) with their MD5 content-hash identity and skip/run/persist
protocol, grid ensembles (`expEnsemble`) and the worker pool (`expPool`).

Python values are modelled through their `str` image (the code only ever
uses configuration values via `str` when rendering); strings are ASCII, so
a byte of the Python 2 `str` is the code point of the Lean `Char`.
-/

set_option maxRecDepth 4000

namespace Explib

/-! ### Byte-string lexicographic comparison (Python 2 `str` comparison) -/

/-- Lexicographic strict order on char lists by code point, as Python 2
compares byte strings. -/
def lexLt : List Char → List Char → Bool
  | [], [] => false
  | [], _ :: _ => true
  | _ :: _, [] => false
  | a :: as, b :: bs =>
    if a.toNat < b.toNat then true
    else if b.toNat < a.toNat then false
    else lexLt as bs

/-- Non-strict lexicographic order on char lists. -/
def lexLe (a b : List Char) : Bool := !lexLt b a

/-- Comparison of `(key, value)` pairs as Python compares tuples of
strings: by key first, then by value. -/
def pairLe (p q : String × String) : Bool :=
  if p.1.data = q.1.data then lexLe p.2.data q.2.data else lexLe p.1.data q.1.data

/-- Insert a pair into an already sorted list (insertion-sort step). -/
def insertPair (p : String × String) : List (String × String) → List (String × String)
  | [] => [p]
  | q :: r => if pairLe p q then p :: q :: r else q :: insertPair p r

/-- `sorted(d.iteritems())`: the field pairs in ascending order. -/
def sortPairs (l : List (String × String)) : List (String × String) :=
  l.foldr insertPair []

/-! ### `Option` (the configuration bag of `explib.base`)

The source class is called `Option`; it is named `Opts` here to avoid the
clash with Lean's `Option` type.  Its `__dict__` is modelled as a list of
`(field name, str(value))` pairs with distinct names (a Python dict). -/

structure Opts where
  fields : List (String × String)
  deriving DecidableEq

/-- `Option.__str__`: `"Option(k1=v1, k2=v2, ...)"` with the fields sorted
by name (`sorted(self.__dict__.iteritems())`). -/
def Opts.str (o : Opts) : String :=
  "Option(" ++
    String.intercalate ", " ((sortPairs o.fields).map (fun kv => kv.1 ++ "=" ++ kv.2)) ++
  ")"

/-- `k in self.__dict__`. -/
def Opts.hasKey (o : Opts) (k : String) : Bool :=
  o.fields.any (fun kv => kv.1 == k)

/-- `self.__dict__[k] = v` for an existing key `k`: overwrite in place. -/
def Opts.setKey (o : Opts) (k v : String) : Opts :=
  ⟨o.fields.map (fun kv => if kv.1 == k then (kv.1, v) else kv)⟩

/-- Value of field `k`, if present. -/
def Opts.getKey (o : Opts) (k : String) : Option String :=
  (o.fields.find? (fun kv => kv.1 == k)).map Prod.snd

/-- `Option.update(**kwargs)`: walk the supplied pairs in order; an
existing key is overwritten, an unknown key raises
`KeyError("'%s' is not a valid parameter." % k)` — modelled by returning
the offending key next to the fields as mutated so far (the Python object
keeps the updates made before the raise). -/
def Opts.update (o : Opts) : List (String × String) → Opts × Option String
  | [] => (o, none)
  | (k, v) :: rest =>
    if o.hasKey k then (o.setKey k v).update rest else (o, some k)

/-- Overwrite a sequence of existing keys in order (the mutations `update`
performs before it meets an unknown key). -/
def Opts.setAll (o : Opts) (kvs : List (String × String)) : Opts :=
  kvs.foldl (fun a kv => a.setKey kv.1 kv.2) o

/-! ### MD5 (`hashlib.md5` over ASCII byte strings) -/

/-- `2^32`. -/
def M32 : Nat := 4294967296

/-- Addition modulo `2^32`. -/
def add32 (a b : Nat) : Nat := (a + b) % M32

/-- Bitwise complement on 32-bit values. -/
def not32 (a : Nat) : Nat := a ^^^ 4294967295

/-- Left rotation of a 32-bit value by `n` (0 < n < 32). -/
def rotl32 (x n : Nat) : Nat := ((x <<< n) ||| (x >>> (32 - n))) % M32

/-- MD5 round function F (rounds 0–15). -/
def mdF (b c d : Nat) : Nat := (b &&& c) ||| (not32 b &&& d)

/-- MD5 round function G (rounds 16–31). -/
def mdG (b c d : Nat) : Nat := (d &&& b) ||| (not32 d &&& c)

/-- MD5 round function H (rounds 32–47). -/
def mdH (b c d : Nat) : Nat := b ^^^ c ^^^ d

/-- MD5 round function I (rounds 48–63). -/
def mdI (b c d : Nat) : Nat := c ^^^ (b ||| not32 d)

/-- The 64 MD5 sine-derived constants. -/
def mdK : List Nat :=
  [0xd76aa478, 0xe8c7b756, 0x242070db, 0xc1bdceee,
   0xf57c0faf, 0x4787c62a, 0xa8304613, 0xfd469501,
   0x698098d8, 0x8b44f7af, 0xffff5bb1, 0x895cd7be,
   0x6b901122, 0xfd987193, 0xa679438e, 0x49b40821,
   0xf61e2562, 0xc040b340, 0x265e5a51, 0xe9b6c7aa,
   0xd62f105d, 0x02441453, 0xd8a1e681, 0xe7d3fbc8,
   0x21e1cde6, 0xc33707d6, 0xf4d50d87, 0x455a14ed,
   0xa9e3e905, 0xfcefa3f8, 0x676f02d9, 0x8d2a4c8a,
   0xfffa3942, 0x8771f681, 0x6d9d6122, 0xfde5380c,
   0xa4beea44, 0x4bdecfa9, 0xf6bb4b60, 0xbebfbc70,
   0x289b7ec6, 0xeaa127fa, 0xd4ef3085, 0x04881d05,
   0xd9d4d039, 0xe6db99e5, 0x1fa27cf8, 0xc4ac5665,
   0xf4292244, 0x432aff97, 0xab9423a7, 0xfc93a039,
   0x655b59c3, 0x8f0ccc92, 0xffeff47d, 0x85845dd1,
   0x6fa87e4f, 0xfe2ce6e0, 0xa3014314, 0x4e0811a1,
   0xf7537e82, 0xbd3af235, 0x2ad7d2bb, 0xeb86d391]

/-- The 64 MD5 per-round left-rotation amounts. -/
def mdS : List Nat :=
  [7, 12, 17, 22, 7, 12, 17, 22, 7, 12, 17, 22, 7, 12, 17, 22,
   5, 9, 14, 20, 5, 9, 14, 20, 5, 9, 14, 20, 5, 9, 14, 20,
   4, 11, 16, 23, 4, 11, 16, 23, 4, 11, 16, 23, 4, 11, 16, 23,
   6, 10, 15, 21, 6, 10, 15, 21, 6, 10, 15, 21, 6, 10, 15, 21]

/-- MD5 padding: append `0x80`, zeros up to 56 mod 64, then the original
bit length as 8 little-endian bytes. -/
def padMessage (msg : List Nat) : List Nat :=
  let len := msg.length
  let zeros := (119 - (len % 64)) % 64
  msg ++ [0x80] ++ List.replicate zeros 0 ++
    ((List.range 8).map (fun i => ((8 * len) >>> (8 * i)) % 256))

/-- The 16 little-endian 32-bit words of one 64-byte block. -/
def blockWords (block : List Nat) : List Nat :=
  (List.range 16).map (fun j =>
    block.getD (4 * j) 0 + 256 * block.getD (4 * j + 1) 0 +
    65536 * block.getD (4 * j + 2) 0 + 16777216 * block.getD (4 * j + 3) 0)

/-- One MD5 round `i` on state `(a, b, c, d)` with message words `ws`. -/
def mdStep (ws : List Nat) (st : Nat × Nat × Nat × Nat) (i : Nat) :
    Nat × Nat × Nat × Nat :=
  let a := st.1
  let b := st.2.1
  let c := st.2.2.1
  let d := st.2.2.2
  let fg : Nat × Nat :=
    if i < 16 then (mdF b c d, i)
    else if i < 32 then (mdG b c d, (5 * i + 1) % 16)
    else if i < 48 then (mdH b c d, (3 * i + 5) % 16)
    else (mdI b c d, (7 * i) % 16)
  let tmp := add32 (add32 (add32 a fg.1) (mdK.getD i 0)) (ws.getD fg.2 0)
  (d, add32 b (rotl32 tmp (mdS.getD i 0)), b, c)

/-- Process one 64-byte block: 64 rounds, then add the block result into
the running state. -/
def processBlock (st : Nat × Nat × Nat × Nat) (block : List Nat) :
    Nat × Nat × Nat × Nat :=
  let e := (List.range 64).foldl (mdStep (blockWords block)) st
  (add32 st.1 e.1, add32 st.2.1 e.2.1, add32 st.2.2.1 e.2.2.1, add32 st.2.2.2 e.2.2.2)

/-- Fold `n` 64-byte blocks of `bytes` into the state. -/
def mdBlocks : Nat → List Nat → Nat × Nat × Nat × Nat → Nat × Nat × Nat × Nat
  | 0, _, st => st
  | n + 1, bytes, st => mdBlocks n (bytes.drop 64) (processBlock st (bytes.take 64))

/-- Hex digit character for `n < 16` (lowercase, as `hexdigest`). -/
def hexDigit (n : Nat) : Char :=
  if n < 10 then Char.ofNat (48 + n) else Char.ofNat (87 + n)

/-- Two lowercase hex characters of a byte. -/
def hexByte (n : Nat) : List Char := [hexDigit (n / 16), hexDigit (n % 16)]

/-- The four little-endian bytes of a 32-bit word. -/
def wordBytes (w : Nat) : List Nat :=
  [w % 256, (w / 256) % 256, (w / 65536) % 256, (w / 16777216) % 256]

/-- MD5 digest of a byte list, as the 32-character lowercase hex string
returned by `hashlib.md5(s).hexdigest()`. -/
def md5Bytes (msg : List Nat) : String :=
  let padded := padMessage msg
  let st := mdBlocks (padded.length / 64) padded
    (0x67452301, 0xefcdab89, 0x98badcfe, 0x10325476)
  ⟨(wordBytes st.1 ++ wordBytes st.2.1 ++ wordBytes st.2.2.1 ++
    wordBytes st.2.2.2).flatMap hexByte⟩

/-- The bytes of an ASCII string. -/
def strBytes (s : String) : List Nat := s.data.map Char.toNat

/-- `hashlib.md5(s).hexdigest()` for an ASCII string `s`. -/
def md5hex (s : String) : String := md5Bytes (strBytes s)

/-! ### Components and profiles

`expDataset`, `expModel` and `expSetting` instances are used by the core
only through their `_opts` configuration bag, so one structure represents
all three.  `expMetric` instances additionally have an identity (the
ensemble shares metric *instances* across profiles) and a mutable
`values` list, modelled by a heap indexed by the instance identity. -/

/-- A constructed dataset, model or setting instance: the core reads only
its `_opts` bag. -/
structure Component where
  opts : Opts
  deriving DecidableEq

/-- A constructed `expMetric` instance: its `_opts` bag plus an instance
identity `id` (Python object identity) under which its mutable `values`
list is stored in a `MetricHeap`. -/
structure expMetric where
  id : Nat
  opts : Opts
  deriving DecidableEq

/-- The `values` lists of all metric instances, keyed by instance
identity; `expMetric.__init__` starts each at `[]`. -/
abbrev MetricHeap := Nat → List Int

/-- A metric's `evaluate` appends the recorded value to its own `values`
list (the accumulating contract of `expMetric`); state of every other
instance is untouched. -/
def recordValue (h : MetricHeap) (i : Nat) (v : Int) : MetricHeap :=
  fun j => if j = i then h j ++ [v] else h j

/-- `expProfile`: one dataset, one model, the metric list, one setting,
the destination directory and the overwrite flag. -/
structure expProfile where
  dataset : Component
  model : Component
  metrics : List expMetric
  setting : Component
  save_dir : String
  overwrite : Bool
  deriving DecidableEq

/-- `expProfile.get_options()`: the four configuration trees. -/
structure OptionsRec where
  dataset : Opts
  model : Opts
  setting : Opts
  metrics : List Opts
  deriving DecidableEq

/-- `expProfile.get_options`. -/
def expProfile.get_options (p : expProfile) : OptionsRec :=
  { dataset := p.dataset.opts
    model := p.model.opts
    setting := p.setting.opts
    metrics := p.metrics.map (fun m => m.opts) }

/-- The rendered configuration strings hashed by `expProfile.run`, in the
order dataset, model, setting, then each metric in list order
(`opts_list` of the source). -/
def expProfile.renderList (p : expProfile) : List String :=
  [p.dataset.opts.str, p.model.opts.str, p.setting.opts.str] ++
    p.metrics.map (fun m => m.opts.str)

/-- The fingerprint: `hashlib.md5` of the rendered configurations joined
by `';'`, hex-encoded (`encoder.hexdigest()` in `expProfile.run`). -/
def expProfile.identity (p : expProfile) : String :=
  md5hex (String.intercalate ";" p.renderList)

/-- `os.path.join(save_dir, filename)` for a relative second component. -/
def pathJoin (dir file : String) : String :=
  if dir = "" then file
  else if dir.data.getLast? = some '/' then dir ++ file
  else dir ++ "/" ++ file

/-! ### The run protocol of `expProfile.run`

The filesystem is an association list from paths to persisted records;
writing shadows any earlier entry for the same path, so lookup of the
first match gives replace-on-write semantics.  The external collaborators
(`self.setting.run()` and `savepkl`) are parameters of the run: the
outcome of `setting.run()` (an auxiliary result or a raised exception),
the `values` each metric holds afterwards, and whether `savepkl` raises
`IOError`. -/

/-- The record pickled by `expProfile.run`:
`dict(Options=options, Metrics=metrics_result, Others=setting_result)`. -/
structure Record where
  Options : OptionsRec
  Metrics : List (Opts × List Int)
  Others : String
  deriving DecidableEq

/-- The filesystem under the output directories. -/
abbrev FS := List (String × Record)

/-- `os.path.exists`. -/
def fsExists (fs : FS) (path : String) : Bool :=
  (fs : List (String × Record)).any (fun e => e.1 == path)

/-- Content at a path (first, i.e. most recent, entry). -/
def fsLookup (fs : FS) (path : String) : Option Record :=
  ((fs : List (String × Record)).find? (fun e => e.1 == path)).map Prod.snd

/-- `savepkl(result, filename)` on success: the new content shadows any
previous file at the path. -/
def fsWrite (fs : FS) (path : String) (r : Record) : FS :=
  ((path, r) :: fs : List (String × Record))

/-- Behaviour of the external collaborators during one `run()`. -/
structure RunEnv where
  /-- `self.setting.run()`: either the auxiliary result it returns, or
  the exception it raises. -/
  settingOutcome : Except String String
  /-- The `values` list each metric instance holds after `setting.run()`
  (read back by `setting.get_metrics_result()`). -/
  metricValues : Nat → List Int
  /-- Whether `savepkl` succeeds; `false` means it raises `IOError`. -/
  saveOk : Bool

/-- Observable events of one `expProfile.run` call, in order. -/
inductive RunEv where
  /-- `logger.warn("'%s' already exists, skip." % filename)`. -/
  | warnSkip (msg : String)
  /-- `self.setting.setup(self.dataset, self.model, self.metrics)`. -/
  | setup
  /-- `self.setting.run()` was invoked. -/
  | settingRun
  /-- `logger.info("'%s' saved." % filename)` after a successful `savepkl`. -/
  | infoSaved (msg : String)
  /-- `logger.error("IOError when saving '%s'" % filename)`. -/
  | errorSaving (msg : String)
  deriving DecidableEq

/-- Result of one `expProfile.run` call: the events in order, the
filesystem afterwards, and the exception raised past `run`, if any. -/
structure RunResult where
  events : List RunEv
  fs : FS
  raised : Option String

/-- `setting.get_metrics_result()`: `(metric._opts, metric.values)` for
each metric in list order, with `values` as left by `setting.run()`. -/
def expProfile.metricsResult (p : expProfile) (env : RunEnv) : List (Opts × List Int) :=
  p.metrics.map (fun m => (m.opts, env.metricValues m.id))

/-- `expProfile.run`: hash the configuration, skip when the file exists
and overwrite is off, otherwise set the setting up, run it, and persist
the combined record, catching `IOError` from `savepkl`. -/
def expProfile.runM (env : RunEnv) (p : expProfile) (fs : FS) : RunResult :=
  let filename := pathJoin p.save_dir p.identity
  if !p.overwrite && fsExists fs filename then
    { events := [.warnSkip ("'" ++ filename ++ "' already exists, skip.")]
      fs := fs
      raised := none }
  else
    match env.settingOutcome with
    | .error e => { events := [.setup, .settingRun], fs := fs, raised := some e }
    | .ok aux =>
      let record : Record :=
        { Options := p.get_options, Metrics := p.metricsResult env, Others := aux }
      if env.saveOk then
        { events := [.setup, .settingRun, .infoSaved ("'" ++ filename ++ "' saved.")]
          fs := fsWrite fs filename record
          raised := none }
      else
        { events := [.setup, .settingRun, .errorSaving ("IOError when saving '" ++ filename ++ "'")]
          fs := fs
          raised := none }

/-! ### Parameter grids (`ParamsGrid` of `explib.utils`)

`explib/utils.py` is not part of the sources at hand; `ParamsGrid` is
modelled from the spec.  A parameter set is a list of keyword arguments
(field name, `str(value)`). -/

/-- One parameter set (`**para` keyword arguments). -/
abbrev Params := List (String × String)

/-- Modelled from the spec: the default `ParamsGrid()` used when no grid
is supplied — "grid of exactly one empty parameter set"; it has length 1
and yields the single empty parameter set. -/
def defaultGrid : List Params := [[]]

/-- `para_grid = para_grid or ParamsGrid()`: `None` and a zero-size grid
are both falsy, so they are replaced by the default grid. -/
def effGrid (g : Option (List Params)) : List Params :=
  match g with
  | none => defaultGrid
  | some l => if l.isEmpty then defaultGrid else l

/-! ### `expEnsemble`

The stored `imap(lambda para: factory(**para), para_grid)` objects are
one-shot Python generators: each entry of `models` / `datasets` holds the
*remaining* items of its generator.  Iterating the ensemble calls
`itertools.product`, which materialises both `chain`s, exhausting every
generator; the post-iteration state is therefore the same ensemble with
every source emptied.

The source's `__init__` sets `setting = None`; we model the configured
state (after `set_setting`), which every claim concerns, so `new` takes
the initial setting explicitly. -/

structure expEnsemble where
  models : List (List Component)
  datasets : List (List Component)
  metrics : List expMetric
  setting : Component
  save_dir : String
  overwrite : Bool
  n_models : Nat
  n_datasets : Nat
  deriving DecidableEq

/-- `expEnsemble.__init__(save_dir, overwrite)` (plus the initial setting,
see above). -/
def expEnsemble.new (save_dir : String) (overwrite : Bool) (s0 : Component) :
    expEnsemble :=
  { models := [], datasets := [], metrics := [], setting := s0
    save_dir := save_dir, overwrite := overwrite
    n_models := 0, n_datasets := 0 }

/-- `expEnsemble.__len__`: `self._n_models * self._n_datasets`, from the
running counters alone. -/
def expEnsemble.length (e : expEnsemble) : Nat := e.n_models * e.n_datasets

/-- `expEnsemble.add_model(model, para_grid)`: append the generator of
one constructed model per parameter set and bump the counter by
`max(1, len(para_grid))` (of the grid after the `or` default). -/
def expEnsemble.add_model (e : expEnsemble) (factory : Params → Component)
    (grid : Option (List Params)) : expEnsemble :=
  let g := effGrid grid
  { e with models := e.models ++ [g.map factory]
           n_models := e.n_models + max 1 g.length }

/-- `expEnsemble.add_dataset(dataset, para_grid)`: symmetric. -/
def expEnsemble.add_dataset (e : expEnsemble) (factory : Params → Component)
    (grid : Option (List Params)) : expEnsemble :=
  let g := effGrid grid
  { e with datasets := e.datasets ++ [g.map factory]
           n_datasets := e.n_datasets + max 1 g.length }

/-- `expEnsemble.add_metrics(*args)`. -/
def expEnsemble.add_metrics (e : expEnsemble) (ms : List expMetric) : expEnsemble :=
  { e with metrics := e.metrics ++ ms }

/-- `expEnsemble.set_setting(setting)`. -/
def expEnsemble.set_setting (e : expEnsemble) (s : Component) : expEnsemble :=
  { e with setting := s }

/-- One full traversal of `expEnsemble.__iter__`: `product(chain(*models),
chain(*datasets))` yields model-major pairs, each wrapped as
`expProfile(dataset, model, self.metrics, self.setting, self.save_dir,
self.overwrite)`; the generators are consumed by `product`, so the
returned state has every source exhausted. -/
def expEnsemble.iterOnce (e : expEnsemble) : List expProfile × expEnsemble :=
  (((e.models.flatten).map (fun m =>
      (e.datasets.flatten).map (fun d =>
        ({ dataset := d, model := m, metrics := e.metrics, setting := e.setting
           save_dir := e.save_dir, overwrite := e.overwrite } : expProfile)))).flatten,
   { e with models := e.models.map (fun _ => [])
            datasets := e.datasets.map (fun _ => []) })

/-- The profiles yielded by one full traversal. -/
def expEnsemble.profiles (e : expEnsemble) : List expProfile := e.iterOnce.1

/-! Ensemble construction as a sequence of the four mutating calls. -/

/-- One mutating call on an ensemble before iteration. -/
inductive EnsOp where
  | addModel (factory : Params → Component) (grid : Option (List Params))
  | addDataset (factory : Params → Component) (grid : Option (List Params))
  | addMetrics (ms : List expMetric)
  | setSetting (s : Component)

/-- Apply one mutating call. -/
def applyOp (e : expEnsemble) : EnsOp → expEnsemble
  | .addModel f g => e.add_model f g
  | .addDataset f g => e.add_dataset f g
  | .addMetrics ms => e.add_metrics ms
  | .setSetting s => e.set_setting s

/-- Apply a sequence of mutating calls. -/
def buildEnsemble (e : expEnsemble) (ops : List EnsOp) : expEnsemble :=
  ops.foldl applyOp e

/-- The size the spec assigns to one added grid: `None` and zero-size
grids count as one variant, a grid of `n ≥ 1` parameter sets as `n`. -/
def specGridCount : Option (List Params) → Nat
  | none => 1
  | some l => max 1 l.length

/-- The per-source spec sizes of the model grids among a call sequence. -/
def modelGridCounts (ops : List EnsOp) : List Nat :=
  ops.filterMap (fun op => match op with
    | .addModel _ g => some (specGridCount g)
    | _ => none)

/-- The per-source spec sizes of the dataset grids among a call sequence. -/
def datasetGridCounts (ops : List EnsOp) : List Nat :=
  ops.filterMap (fun op => match op with
    | .addDataset _ g => some (specGridCount g)
    | _ => none)

/-! ### `expPool`

A stored task is a single profile (wrapped into a one-element group by
`add`) or an ensemble, flattened at `run` time by `chain(*self.tasks)`.
The outcome of `foo.run()` for each dispatched profile — normal return or
a raised exception — is a parameter `beh` of the pool run, standing for
the collaborator-dependent execution. -/

/-- A task as stored by `expPool.add`. -/
inductive PoolTask where
  | single (p : expProfile)
  | group (e : expEnsemble)

/-- `save_dir` of the added object (both `expProfile` and `expEnsemble`
expose it). -/
def PoolTask.save_dir : PoolTask → String
  | .single p => p.save_dir
  | .group e => e.save_dir

structure expPool where
  n_workers : Nat
  tasks : List PoolTask
  dirs : List String
  deriving Inhabited

/-- `expPool.__init__(n_workers)`. -/
def expPool.new (n_workers : Nat) : expPool :=
  { n_workers := n_workers, tasks := [], dirs := [] }

/-- `expPool.add(profiles)`: register the output directory in the set and
store the task, wrapping a lone profile. -/
def expPool.add (pool : expPool) (t : PoolTask) : expPool :=
  { pool with
      dirs := if pool.dirs.contains t.save_dir then pool.dirs
              else pool.dirs ++ [t.save_dir]
      tasks := pool.tasks ++ [t] }

/-- `chain(*self.tasks)`: the profiles of all tasks in order (a stored
ensemble is traversed here). -/
def expPool.flatTasks (pool : expPool) : List expProfile :=
  pool.tasks.flatMap (fun t => match t with
    | .single p => [p]
    | .group e => e.profiles)

/-- `'%3d' % n`: decimal, right-aligned to width 3. -/
def fmt3 (n : Nat) : String :=
  let s := toString n
  if s.length < 3 then ⟨List.replicate (3 - s.length) ' '⟩ ++ s else s

/-- Observable events of `expPool.run`. -/
inductive PoolEv where
  /-- `logger.info('Exp %3d Begins...' % i)`. -/
  | beginEv (msg : String)
  /-- `logger.error('Exp %3d:', exc_info=1)`: the ONLY argument passed is
  the `exc_info` keyword, so the `%3d` is never interpolated and the
  logged message is the literal format string. -/
  | errorEv (msg : String)
  /-- `logger.info('Exp %3d Done!' % i)`. -/
  | doneEv (msg : String)
  deriving DecidableEq

/-- `_wrapper((i, foo))`: log the start, call `foo.run()` catching
`BaseException` (logging the error), log completion.  `beh` gives the
outcome of `foo.run()`. -/
def wrapperM (beh : expProfile → Except String Unit) (i : Nat) (p : expProfile) :
    List PoolEv :=
  [.beginEv ("Exp " ++ fmt3 i ++ " Begins...")] ++
    (match beh p with
     | .ok _ => []
     | .error _ => [.errorEv "Exp %3d:"]) ++
    [.doneEv ("Exp " ++ fmt3 i ++ " Done!")]

/-- `expPool.run`: dispatch `_wrapper` over the enumerated flattened
tasks.  Every per-task exception is caught inside `_wrapper`, so the
event trace is total — `run` itself returns normally. -/
def expPool.runM (beh : expProfile → Except String Unit) (pool : expPool) :
    List PoolEv :=
  (pool.flatTasks.enum.map (fun ip => wrapperM beh ip.1 ip.2)).flatten

/-! ### Concrete example data used by the decidable instances of the
properties below. -/

/-- The end-to-end example ensemble: one model factory with a grid of two
parameter sets, one dataset factory with a grid of three, one metric, one
setting. -/
def exampleEnsemble : expEnsemble :=
  buildEnsemble (expEnsemble.new "out" false ⟨⟨[("name", "s")]⟩⟩)
    [.addMetrics [⟨0, ⟨[("name", "acc")]⟩⟩],
     .addModel (fun para => ⟨⟨[("name", "m")] ++ para⟩⟩)
       (some [[("lr", "0.1")], [("lr", "0.2")]]),
     .addDataset (fun para => ⟨⟨[("name", "d")] ++ para⟩⟩)
       (some [[("n", "1")], [("n", "2")], [("n", "3")]])]

/-- A one-model, one-dataset ensemble (no grids) for the re-iteration
behaviour. -/
def pairEnsemble : expEnsemble :=
  buildEnsemble (expEnsemble.new "out" false ⟨⟨[("name", "s")]⟩⟩)
    [.addModel (fun _ => ⟨⟨[("name", "m")]⟩⟩) none,
     .addDataset (fun _ => ⟨⟨[("name", "d")]⟩⟩) none]

/-- A minimal profile writing under `dir`. -/
def quietProfile (dir : String) : expProfile :=
  { dataset := ⟨⟨[("name", "d")]⟩⟩, model := ⟨⟨[("name", "m")]⟩⟩
    metrics := [], setting := ⟨⟨[("name", "s")]⟩⟩
    save_dir := dir, overwrite := false }

/-- Three single-profile tasks; the middle one is made to fail by
`failOnBad`. -/
def examplePool : expPool :=
  (((expPool.new 2).add (.single (quietProfile "out"))).add
      (.single (quietProfile "bad"))).add
    (.single (quietProfile "out2"))

/-- A `foo.run()` behaviour that raises exactly for profiles writing to
`"bad"`. -/
def failOnBad : expProfile → Except String Unit :=
  fun p => if p.save_dir = "bad" then Except.error "RuntimeError" else Except.ok ()

end Explib

/-! Sanity checks of the MD5 embedding against reference digests. -/

/-- The MD5 embedding matches the reference digest of the empty string. -/
theorem md5hex_empty : Explib.md5hex "" = "d41d8cd98f00b204e9800998ecf8427e" := by
  decide

/-- The MD5 embedding matches the reference digest of `"abc"`. -/
theorem md5hex_abc : Explib.md5hex "abc" = "900150983cd24fb0d6963f7d28e17f72" := by
  decide

/-- The MD5 embedding matches the reference digest of a 100-byte message
(two padded blocks). -/
theorem md5hex_hundred_a :
    Explib.md5hex "aaaaaaaaaaaaaaaaaaaaaaaaaaaaaaaaaaaaaaaaaaaaaaaaaaaaaaaaaaaaaaaaaaaaaaaaaaaaaaaaaaaaaaaaaaaaaaaaaaaa" =
      "36a92cc94a9e0fa21f625f8bfb007adf" := by
  decide

/-! ### Helper lemmas on `Opts` -/

namespace Explib

theorem fst_setKey_entry (k v : String) (kv : String × String) :
    (if kv.1 == k then (kv.1, v) else kv).1 = kv.1 := by
  by_cases h : kv.1 = k <;> simp [h]

theorem hasKey_setKey (o : Opts) (k v k' : String) :
    (o.setKey k v).hasKey k' = o.hasKey k' := by
  obtain ⟨l⟩ := o
  induction l with
  | nil => rfl
  | cons kv rest ih =>
    simp only [Opts.setKey, Opts.hasKey, List.map_cons, List.any_cons] at ih ⊢
    rw [ih, fst_setKey_entry]

theorem keys_setKey (o : Opts) (k v : String) :
    (o.setKey k v).fields.map Prod.fst = o.fields.map Prod.fst := by
  simp only [Opts.setKey, List.map_map]
  apply List.map_congr_left
  intro kv _
  exact fst_setKey_entry k v kv

theorem find_map_set_self (k v : String) (l : List (String × String))
    (h : l.any (fun kv => kv.1 == k) = true) :
    (List.find? (fun kv => kv.1 == k)
        (l.map (fun kv => if kv.1 == k then (kv.1, v) else kv))).map Prod.snd = some v := by
  induction l with
  | nil => simp at h
  | cons kv rest ih =>
    simp only [List.map_cons]
    by_cases hk : kv.1 = k
    · have hb : (kv.1 == k) = true := by simp [hk]
      rw [if_pos hb]
      simp only [List.find?_cons, hb]
      rfl
    · have hbf : (kv.1 == k) = false := by simp [hk]
      rw [if_neg (by simp [hk])]
      simp only [List.find?_cons, hbf]
      exact ih (by simpa [List.any_cons, hk] using h)

theorem find_map_set_other (k v k' : String) (l : List (String × String))
    (hne : k' ≠ k) :
    (List.find? (fun kv => kv.1 == k')
        (l.map (fun kv => if kv.1 == k then (kv.1, v) else kv))).map Prod.snd =
      (List.find? (fun kv => kv.1 == k') l).map Prod.snd := by
  induction l with
  | nil => rfl
  | cons kv rest ih =>
    simp only [List.map_cons]
    by_cases hk : kv.1 = k
    · have hb : (kv.1 == k) = true := by simp [hk]
      have hb' : (kv.1 == k') = false := by
        simp only [beq_eq_false_iff_ne, ne_eq]
        exact fun he => hne (he ▸ hk)
      rw [if_pos hb]
      simp only [List.find?_cons, hb']
      exact ih
    · rw [if_neg (by simp [hk])]
      by_cases hk' : kv.1 = k'
      · have hb' : (kv.1 == k') = true := by simp [hk']
        simp only [List.find?_cons, hb']
      · have hb' : (kv.1 == k') = false := by simp [hk']
        simp only [List.find?_cons, hb']
        exact ih

theorem getKey_setKey_self (o : Opts) (k v : String) (h : o.hasKey k = true) :
    (o.setKey k v).getKey k = some v :=
  find_map_set_self k v o.fields h

theorem getKey_setKey_other (o : Opts) (k v k' : String) (h : k' ≠ k) :
    (o.setKey k v).getKey k' = o.getKey k' :=
  find_map_set_other k v k' o.fields h

theorem getKey_update_notin (o : Opts) (kvs : List (String × String)) (k : String)
    (h : k ∉ kvs.map Prod.fst) : (o.update kvs).1.getKey k = o.getKey k := by
  induction kvs generalizing o with
  | nil => rfl
  | cons kv rest ih =>
    simp only [List.map_cons, List.mem_cons, not_or] at h
    obtain ⟨kv1, kv2⟩ := kv
    simp only [Opts.update]
    by_cases hh : o.hasKey kv1
    · rw [if_pos hh, ih _ h.2, getKey_setKey_other _ _ _ _ h.1]
    · rw [if_neg hh]

theorem update_err_none (o : Opts) (kvs : List (String × String))
    (h : ∀ x ∈ kvs, o.hasKey x.1 = true) : (o.update kvs).2 = none := by
  induction kvs generalizing o with
  | nil => rfl
  | cons kv rest ih =>
    obtain ⟨kv1, kv2⟩ := kv
    simp only [Opts.update]
    rw [if_pos (h _ (List.mem_cons_self _ _))]
    exact ih _ fun x hx => by rw [hasKey_setKey]; exact h x (List.mem_cons_of_mem _ hx)

theorem update_keys (o : Opts) (kvs : List (String × String))
    (h : ∀ x ∈ kvs, o.hasKey x.1 = true) :
    (o.update kvs).1.fields.map Prod.fst = o.fields.map Prod.fst := by
  induction kvs generalizing o with
  | nil => rfl
  | cons kv rest ih =>
    obtain ⟨kv1, kv2⟩ := kv
    simp only [Opts.update]
    rw [if_pos (h _ (List.mem_cons_self _ _))]
    rw [ih _ fun x hx => by rw [hasKey_setKey]; exact h x (List.mem_cons_of_mem _ hx)]
    exact keys_setKey o kv1 kv2

theorem update_getKey (o : Opts) (kvs : List (String × String))
    (h : ∀ x ∈ kvs, o.hasKey x.1 = true) (hnd : (kvs.map Prod.fst).Nodup) :
    ∀ x ∈ kvs, (o.update kvs).1.getKey x.1 = some x.2 := by
  induction kvs generalizing o with
  | nil => intro x hx; cases hx
  | cons kv rest ih =>
    obtain ⟨kv1, kv2⟩ := kv
    simp only [List.map_cons, List.nodup_cons] at hnd
    intro x hx
    simp only [Opts.update]
    rw [if_pos (h _ (List.mem_cons_self _ _))]
    rcases List.mem_cons.1 hx with rfl | hx'
    · rw [getKey_update_notin _ _ _ hnd.1]
      exact getKey_setKey_self _ _ _ (h _ (List.mem_cons_self _ _))
    · exact ih _ (fun y hy => by
        rw [hasKey_setKey]; exact h y (List.mem_cons_of_mem _ hy)) hnd.2 x hx'

theorem update_first_unknown (o : Opts) (pre suf : List (String × String))
    (k v : String) (hpre : ∀ x ∈ pre, o.hasKey x.1 = true)
    (hk : o.hasKey k = false) :
    o.update (pre ++ (k, v) :: suf) = (o.setAll pre, some k) := by
  induction pre generalizing o with
  | nil =>
    simp only [List.nil_append, Opts.update, Opts.setAll, List.foldl_nil]
    rw [if_neg (by simp [hk])]
  | cons kv rest ih =>
    obtain ⟨kv1, kv2⟩ := kv
    show Opts.update o ((kv1, kv2) :: (rest ++ (k, v) :: suf)) = _
    simp only [Opts.update]
    rw [if_pos (hpre _ (List.mem_cons_self _ _))]
    have hre := ih (o.setKey kv1 kv2)
      (fun x hx => by rw [hasKey_setKey]; exact hpre x (List.mem_cons_of_mem _ hx))
      (by rw [hasKey_setKey]; exact hk)
    rw [hre]
    rfl

end Explib

/-! ### Claim theorems -/

open Explib

/-- C1: two Profiles whose dataset, model, setting and metric
configurations render to identical strings, with metrics in the same list
order, get the same fingerprint (the MD5 hex digest of those rendered
strings joined by ';' in the order dataset, model, setting, then each
metric), regardless of which component instances are used. -/
theorem C1_identity_deterministic (p1 p2 : expProfile)
    (hd : p1.dataset.opts.str = p2.dataset.opts.str)
    (hm : p1.model.opts.str = p2.model.opts.str)
    (hs : p1.setting.opts.str = p2.setting.opts.str)
    (hms : p1.metrics.map (fun m => m.opts.str) = p2.metrics.map (fun m => m.opts.str)) :
    p1.identity = p2.identity := by
  unfold expProfile.identity expProfile.renderList
  rw [hd, hm, hs, hms]

/-- Witness for C1: concrete profiles with distinct instances (different
metric ids, different dict order, different destination) but identical
rendered configurations share the fingerprint. -/
theorem C1_identity_deterministic_witness :
    expProfile.identity
        { dataset := ⟨⟨[("n", "10"), ("name", "d")]⟩⟩
          model := ⟨⟨[("name", "m")]⟩⟩
          metrics := [⟨0, ⟨[("name", "acc")]⟩⟩]
          setting := ⟨⟨[("name", "s")]⟩⟩
          save_dir := "out", overwrite := false } =
      expProfile.identity
        { dataset := ⟨⟨[("name", "d"), ("n", "10")]⟩⟩
          model := ⟨⟨[("name", "m")]⟩⟩
          metrics := [⟨7, ⟨[("name", "acc")]⟩⟩]
          setting := ⟨⟨[("name", "s")]⟩⟩
          save_dir := "elsewhere", overwrite := true } :=
  C1_identity_deterministic _ _ (by decide) (by decide) (by decide) (by decide)

/-- C7: `update` overwrites every supplied key that exists among the
fields (error `none`, key set unchanged, each supplied key now mapping to
its supplied value), fails naming the first unknown key with exactly the
prefix before it applied (no atomicity), and a single-unknown-field
update mutates nothing. -/
theorem C7_update_semantics (o : Opts) (kvs pre suf : List (String × String))
    (k v : String) :
    ((∀ x ∈ kvs, o.hasKey x.1 = true) →
      (o.update kvs).2 = none ∧
      (o.update kvs).1.fields.map Prod.fst = o.fields.map Prod.fst ∧
      ((kvs.map Prod.fst).Nodup →
        ∀ x ∈ kvs, (o.update kvs).1.getKey x.1 = some x.2)) ∧
    ((∀ x ∈ pre, o.hasKey x.1 = true) → o.hasKey k = false →
      o.update (pre ++ (k, v) :: suf) = (o.setAll pre, some k)) ∧
    (o.hasKey k = false → o.update [(k, v)] = (o, some k)) := by
  refine ⟨fun h => ⟨update_err_none o kvs h, update_keys o kvs h,
      fun hnd => update_getKey o kvs h hnd⟩,
    fun hp hk => update_first_unknown o pre suf k v hp hk,
    fun hk => ?_⟩
  have h0 := update_first_unknown o [] [] k v (by simp) hk
  simpa [Opts.setAll] using h0

/-- Witness for C7: on `Option(lr=0.1, name=x)`, updating both existing
keys succeeds and overwrites `lr`; updating the single unknown key
`unknownField` fails naming it and mutates no field. -/
theorem C7_update_semantics_witness :
    (Opts.update ⟨[("lr", "0.1"), ("name", "x")]⟩ [("lr", "0.2"), ("name", "y")]).2 = none ∧
    (Opts.update ⟨[("lr", "0.1"), ("name", "x")]⟩ [("lr", "0.2"), ("name", "y")]).1.getKey "lr" = some "0.2" ∧
    Opts.update ⟨[("lr", "0.1"), ("name", "x")]⟩ [("unknownField", "1")] =
      (⟨[("lr", "0.1"), ("name", "x")]⟩, some "unknownField") := by
  have h := C7_update_semantics ⟨[("lr", "0.1"), ("name", "x")]⟩
    [("lr", "0.2"), ("name", "y")] [] [] "unknownField" "1"
  refine ⟨(h.1 (by decide)).1, ?_, h.2.2 (by decide)⟩
  have hv := (h.1 (by decide)).2.2 (by decide) ("lr", "0.2") (by decide)
  simpa using hv

/-- C8 counterexample: the claim "reordering at least two distinct metric
configurations changes the fingerprint" fails on the code.  The two
metric configurations below render differently, the two profiles share
the dataset/model/setting configurations and list the metrics in opposite
orders, yet the fingerprints are EQUAL: the first metric's rendered
string embeds the `';'` join separator (`Option(name=a);Option(name=a)`),
so both orders serialize to the same hashed string. -/
theorem C8_metric_order_counterexample :
    Opts.str ⟨[("name", "a);Option(name=a")]⟩ ≠ Opts.str ⟨[("name", "a")]⟩ ∧
    expProfile.identity
        { dataset := ⟨⟨[("name", "d")]⟩⟩, model := ⟨⟨[("name", "m")]⟩⟩
          metrics := [⟨0, ⟨[("name", "a);Option(name=a")]⟩⟩, ⟨1, ⟨[("name", "a")]⟩⟩]
          setting := ⟨⟨[("name", "s")]⟩⟩, save_dir := "out", overwrite := false } =
      expProfile.identity
        { dataset := ⟨⟨[("name", "d")]⟩⟩, model := ⟨⟨[("name", "m")]⟩⟩
          metrics := [⟨1, ⟨[("name", "a")]⟩⟩, ⟨0, ⟨[("name", "a);Option(name=a")]⟩⟩]
          setting := ⟨⟨[("name", "s")]⟩⟩, save_dir := "out", overwrite := false } := by
  exact ⟨by decide, by decide⟩

/-- C8 amended: reordering two distinct metric configurations changes the
fingerprint whenever the reordered render lists join to different
strings — as for ordinary configurations, verified here for
`Option(name=acc)` and `Option(name=mse)` — but not for every pair of
distinct configurations, since a rendered value can embed the `';'`
separator pattern (see the counterexample). -/
theorem C8_metric_order_sensitivity_amended :
    Opts.str ⟨[("name", "acc")]⟩ ≠ Opts.str ⟨[("name", "mse")]⟩ ∧
    expProfile.identity
        { dataset := ⟨⟨[("name", "d")]⟩⟩, model := ⟨⟨[("name", "m")]⟩⟩
          metrics := [⟨0, ⟨[("name", "acc")]⟩⟩, ⟨1, ⟨[("name", "mse")]⟩⟩]
          setting := ⟨⟨[("name", "s")]⟩⟩, save_dir := "out", overwrite := false } ≠
      expProfile.identity
        { dataset := ⟨⟨[("name", "d")]⟩⟩, model := ⟨⟨[("name", "m")]⟩⟩
          metrics := [⟨1, ⟨[("name", "mse")]⟩⟩, ⟨0, ⟨[("name", "acc")]⟩⟩]
          setting := ⟨⟨[("name", "s")]⟩⟩, save_dir := "out", overwrite := false } := by
  exact ⟨by decide, by decide⟩

/-- Writing a record makes it the content found at its path. -/
theorem fsLookup_write (fs : Explib.FS) (f : String) (r : Explib.Record) :
    fsLookup (fsWrite fs f r) f = some r := by
  simp [Explib.fsLookup, Explib.fsWrite, List.find?_cons]

/-- C2: `run` takes the skip branch exactly when overwrite is off and the
result file exists, and then does nothing but emit the skip notice (no
setup, no setting run, no write, nothing raised); otherwise the expensive
path runs, and with overwrite on and succeeding collaborators the file at
`save_dir/fingerprint` is replaced by the freshly computed record
regardless of prior existence. -/
theorem C2_run_gate (env : RunEnv) (p : expProfile) (fs : FS) :
    (p.overwrite = false →
      fsExists fs (pathJoin p.save_dir p.identity) = true →
      p.runM env fs =
        { events := [.warnSkip ("'" ++ pathJoin p.save_dir p.identity ++
            "' already exists, skip.")]
          fs := fs
          raised := none }) ∧
    (p.overwrite = true ∨ fsExists fs (pathJoin p.save_dir p.identity) = false →
      RunEv.setup ∈ (p.runM env fs).events ∧
      RunEv.settingRun ∈ (p.runM env fs).events) ∧
    (p.overwrite = true →
      ∀ aux, env.settingOutcome = Except.ok aux → env.saveOk = true →
        fsLookup (p.runM env fs).fs (pathJoin p.save_dir p.identity) =
          some { Options := p.get_options
                 Metrics := p.metricsResult env
                 Others := aux }) := by
  refine ⟨fun h1 h2 => ?_, fun h => ?_, fun hov aux hok hsave => ?_⟩
  · simp [expProfile.runM, h1, h2]
  · have hc : (!p.overwrite && fsExists fs (pathJoin p.save_dir p.identity)) = false := by
      rcases h with h | h <;> simp [h]
    simp only [expProfile.runM, hc, Bool.false_eq_true, if_false]
    rcases hout : env.settingOutcome with e | aux
    · simp
    · rcases hsave : env.saveOk <;> simp
  · have hc : (!p.overwrite && fsExists fs (pathJoin p.save_dir p.identity)) = false := by
      simp [hov]
    simp only [expProfile.runM, hc, Bool.false_eq_true, if_false, hok, hsave, if_true]
    exact fsLookup_write fs _ _

/-- Witness for C2: with overwrite off and the fingerprint file present,
the concrete profile's run is exactly the skip notice; the same profile
with overwrite on replaces the stale record with the fresh one. -/
theorem C2_run_gate_witness :
    expProfile.runM
        { settingOutcome := Except.ok "aux", metricValues := fun _ => [1], saveOk := true }
        { dataset := ⟨⟨[("name", "d")]⟩⟩, model := ⟨⟨[("name", "m")]⟩⟩
          metrics := [⟨0, ⟨[("name", "acc")]⟩⟩]
          setting := ⟨⟨[("name", "s")]⟩⟩, save_dir := "out", overwrite := false }
        [(pathJoin "out" (expProfile.identity
            { dataset := ⟨⟨[("name", "d")]⟩⟩, model := ⟨⟨[("name", "m")]⟩⟩
              metrics := [⟨0, ⟨[("name", "acc")]⟩⟩]
              setting := ⟨⟨[("name", "s")]⟩⟩, save_dir := "out", overwrite := false }),
          { Options := ⟨⟨[]⟩, ⟨[]⟩, ⟨[]⟩, []⟩, Metrics := [], Others := "stale" })] =
      { events := [.warnSkip ("'" ++ pathJoin "out" (expProfile.identity
            { dataset := ⟨⟨[("name", "d")]⟩⟩, model := ⟨⟨[("name", "m")]⟩⟩
              metrics := [⟨0, ⟨[("name", "acc")]⟩⟩]
              setting := ⟨⟨[("name", "s")]⟩⟩, save_dir := "out", overwrite := false }) ++
            "' already exists, skip.")]
        fs := [(pathJoin "out" (expProfile.identity
            { dataset := ⟨⟨[("name", "d")]⟩⟩, model := ⟨⟨[("name", "m")]⟩⟩
              metrics := [⟨0, ⟨[("name", "acc")]⟩⟩]
              setting := ⟨⟨[("name", "s")]⟩⟩, save_dir := "out", overwrite := false }),
          { Options := ⟨⟨[]⟩, ⟨[]⟩, ⟨[]⟩, []⟩, Metrics := [], Others := "stale" })]
        raised := none } ∧
    fsLookup (expProfile.runM
        { settingOutcome := Except.ok "aux", metricValues := fun _ => [1], saveOk := true }
        { dataset := ⟨⟨[("name", "d")]⟩⟩, model := ⟨⟨[("name", "m")]⟩⟩
          metrics := [⟨0, ⟨[("name", "acc")]⟩⟩]
          setting := ⟨⟨[("name", "s")]⟩⟩, save_dir := "out", overwrite := true }
        [(pathJoin "out" (expProfile.identity
            { dataset := ⟨⟨[("name", "d")]⟩⟩, model := ⟨⟨[("name", "m")]⟩⟩
              metrics := [⟨0, ⟨[("name", "acc")]⟩⟩]
              setting := ⟨⟨[("name", "s")]⟩⟩, save_dir := "out", overwrite := true }),
          { Options := ⟨⟨[]⟩, ⟨[]⟩, ⟨[]⟩, []⟩, Metrics := [], Others := "stale" })]).fs
      (pathJoin "out" (expProfile.identity
        { dataset := ⟨⟨[("name", "d")]⟩⟩, model := ⟨⟨[("name", "m")]⟩⟩
          metrics := [⟨0, ⟨[("name", "acc")]⟩⟩]
          setting := ⟨⟨[("name", "s")]⟩⟩, save_dir := "out", overwrite := true })) =
      some { Options := expProfile.get_options
               { dataset := ⟨⟨[("name", "d")]⟩⟩, model := ⟨⟨[("name", "m")]⟩⟩
                 metrics := [⟨0, ⟨[("name", "acc")]⟩⟩]
                 setting := ⟨⟨[("name", "s")]⟩⟩, save_dir := "out", overwrite := true }
             Metrics := expProfile.metricsResult
               { dataset := ⟨⟨[("name", "d")]⟩⟩, model := ⟨⟨[("name", "m")]⟩⟩
                 metrics := [⟨0, ⟨[("name", "acc")]⟩⟩]
                 setting := ⟨⟨[("name", "s")]⟩⟩, save_dir := "out", overwrite := true }
               { settingOutcome := Except.ok "aux", metricValues := fun _ => [1], saveOk := true }
             Others := "aux" } := by
  constructor
  · exact (C2_run_gate _ _ _).1 rfl (by decide)
  · exact (C2_run_gate _ _ _).2.2 rfl "aux" rfl rfl

/-- C6: an `IOError` from persistence is caught at the profile level and
logged, nothing is raised past `run` and the run is otherwise complete;
and persistence is attempted only after the setting's run completed
successfully — when `setting.run()` raises, no save is attempted and the
filesystem is untouched (no partial result file). -/
theorem C6_persistence_errors (env : RunEnv) (p : expProfile) (fs : FS) :
    (p.overwrite = true ∨ fsExists fs (pathJoin p.save_dir p.identity) = false) →
    (∀ aux, env.settingOutcome = Except.ok aux → env.saveOk = false →
      p.runM env fs =
        { events := [.setup, .settingRun, .errorSaving ("IOError when saving '" ++
            pathJoin p.save_dir p.identity ++ "'")]
          fs := fs
          raised := none }) ∧
    (∀ e, env.settingOutcome = Except.error e →
      p.runM env fs = { events := [.setup, .settingRun], fs := fs, raised := some e }) := by
  intro h
  have hc : (!p.overwrite && fsExists fs (pathJoin p.save_dir p.identity)) = false := by
    rcases h with h | h <;> simp [h]
  constructor
  · intro aux hok hsave
    simp [expProfile.runM, hc, hok, hsave]
  · intro e herr
    simp [expProfile.runM, hc, herr]

/-- Witness for C6: at a concrete profile on an empty filesystem, a
failing `savepkl` yields the logged `IOError` with nothing raised and
nothing written, and a raising `setting.run()` yields no write at all. -/
theorem C6_persistence_errors_witness :
    expProfile.runM
        { settingOutcome := Except.ok "aux", metricValues := fun _ => [], saveOk := false }
        { dataset := ⟨⟨[("name", "d")]⟩⟩, model := ⟨⟨[("name", "m")]⟩⟩
          metrics := [], setting := ⟨⟨[("name", "s")]⟩⟩
          save_dir := "out", overwrite := false } [] =
      { events := [.setup, .settingRun, .errorSaving ("IOError when saving '" ++
          pathJoin "out" (expProfile.identity
            { dataset := ⟨⟨[("name", "d")]⟩⟩, model := ⟨⟨[("name", "m")]⟩⟩
              metrics := [], setting := ⟨⟨[("name", "s")]⟩⟩
              save_dir := "out", overwrite := false }) ++ "'")]
        fs := []
        raised := none } ∧
    expProfile.runM
        { settingOutcome := Except.error "boom", metricValues := fun _ => [], saveOk := true }
        { dataset := ⟨⟨[("name", "d")]⟩⟩, model := ⟨⟨[("name", "m")]⟩⟩
          metrics := [], setting := ⟨⟨[("name", "s")]⟩⟩
          save_dir := "out", overwrite := false } [] =
      { events := [.setup, .settingRun], fs := [], raised := some "boom" } := by
  constructor
  · exact (C6_persistence_errors _ _ _ (Or.inr (by decide))).1 "aux" rfl rfl
  · exact (C6_persistence_errors _ _ _ (Or.inr (by decide))).2 "boom" rfl

/-! ### Ensemble cardinality lemmas -/

/-- The effective grid always has the size the spec assigns: `None` and
zero-size grids behave as one empty parameter set. -/
theorem effGrid_length (g : Option (List Params)) :
    (effGrid g).length = specGridCount g := by
  rcases g with _ | l
  · rfl
  · rcases l with _ | ⟨p, r⟩
    · rfl
    · simp only [effGrid, specGridCount, List.isEmpty_cons, Bool.false_eq_true,
        if_false, List.length_cons]
      exact (Nat.max_eq_right (Nat.succ_le_succ (Nat.zero_le _))).symm

/-- The counter increment of one `add_model`/`add_dataset` equals the
spec size of the supplied grid. -/
theorem max_one_effGrid_length (g : Option (List Params)) :
    max 1 (effGrid g).length = specGridCount g := by
  rw [effGrid_length]
  rcases g with _ | l
  · rfl
  · simp only [specGridCount]
    exact Nat.max_eq_right (Nat.le_max_left 1 l.length)

theorem build_n_models (e : Explib.expEnsemble) (ops : List EnsOp) :
    (buildEnsemble e ops).n_models = e.n_models + (modelGridCounts ops).sum := by
  induction ops generalizing e with
  | nil => simp [buildEnsemble, modelGridCounts]
  | cons op rest ih =>
    rcases op with ⟨f, g⟩ | ⟨f, g⟩ | ms | s <;>
      simp only [buildEnsemble, List.foldl_cons, applyOp, modelGridCounts,
        List.filterMap_cons] at ih ⊢ <;>
      rw [ih]
    · simp [expEnsemble.add_model, max_one_effGrid_length, List.sum_cons, Nat.add_assoc]
    · simp [expEnsemble.add_dataset]
    · simp [expEnsemble.add_metrics]
    · simp [expEnsemble.set_setting]

theorem build_n_datasets (e : Explib.expEnsemble) (ops : List EnsOp) :
    (buildEnsemble e ops).n_datasets = e.n_datasets + (datasetGridCounts ops).sum := by
  induction ops generalizing e with
  | nil => simp [buildEnsemble, datasetGridCounts]
  | cons op rest ih =>
    rcases op with ⟨f, g⟩ | ⟨f, g⟩ | ms | s <;>
      simp only [buildEnsemble, List.foldl_cons, applyOp, datasetGridCounts,
        List.filterMap_cons] at ih ⊢ <;>
      rw [ih]
    · simp [expEnsemble.add_model]
    · simp [expEnsemble.add_dataset, max_one_effGrid_length, List.sum_cons, Nat.add_assoc]
    · simp [expEnsemble.add_metrics]
    · simp [expEnsemble.set_setting]

theorem build_models_flatten (e : Explib.expEnsemble) (ops : List EnsOp) :
    (buildEnsemble e ops).models.flatten.length =
      e.models.flatten.length + (modelGridCounts ops).sum := by
  induction ops generalizing e with
  | nil => simp [buildEnsemble, modelGridCounts]
  | cons op rest ih =>
    rcases op with ⟨f, g⟩ | ⟨f, g⟩ | ms | s <;>
      simp only [buildEnsemble, List.foldl_cons, applyOp, modelGridCounts,
        List.filterMap_cons] at ih ⊢ <;>
      rw [ih]
    · simp [expEnsemble.add_model, effGrid_length, List.sum_cons, Nat.add_assoc]
    · simp [expEnsemble.add_dataset]
    · simp [expEnsemble.add_metrics]
    · simp [expEnsemble.set_setting]

theorem build_datasets_flatten (e : Explib.expEnsemble) (ops : List EnsOp) :
    (buildEnsemble e ops).datasets.flatten.length =
      e.datasets.flatten.length + (datasetGridCounts ops).sum := by
  induction ops generalizing e with
  | nil => simp [buildEnsemble, datasetGridCounts]
  | cons op rest ih =>
    rcases op with ⟨f, g⟩ | ⟨f, g⟩ | ms | s <;>
      simp only [buildEnsemble, List.foldl_cons, applyOp, datasetGridCounts,
        List.filterMap_cons] at ih ⊢ <;>
      rw [ih]
    · simp [expEnsemble.add_model]
    · simp [expEnsemble.add_dataset, effGrid_length, List.sum_cons, Nat.add_assoc]
    · simp [expEnsemble.add_metrics]
    · simp [expEnsemble.set_setting]

/-- Length of the model-major cross-product. -/
theorem cross_flatten_length {α β γ : Type} (f : α → β → γ) (ms : List α) (ds : List β) :
    ((ms.map (fun m => ds.map (f m))).flatten).length = ms.length * ds.length := by
  induction ms with
  | nil => simp
  | cons m rest ih =>
    simp only [List.map_cons, List.flatten_cons, List.length_append, List.length_map, ih,
      List.length_cons]
    ring

/-- One traversal yields `|models| * |datasets|` profiles. -/
theorem profiles_length (e : Explib.expEnsemble) :
    e.profiles.length = e.models.flatten.length * e.datasets.flatten.length := by
  simp only [Explib.expEnsemble.profiles, Explib.expEnsemble.iterOnce]
  exact cross_flatten_length _ _ _

/-- C4: for any ensemble built by any sequence of add calls, `__len__`
equals the product of the per-side sums of `max(1, grid size)` — `None`
and zero-size grids counting 1 — computed from the running counters,
and this coincides with the number of profiles a traversal would yield. -/
theorem C4_ensemble_length (sd : String) (ow : Bool) (s0 : Component) (ops : List EnsOp) :
    (buildEnsemble (expEnsemble.new sd ow s0) ops).length =
      (modelGridCounts ops).sum * (datasetGridCounts ops).sum ∧
    (buildEnsemble (expEnsemble.new sd ow s0) ops).length =
      (buildEnsemble (expEnsemble.new sd ow s0) ops).profiles.length := by
  constructor
  · unfold expEnsemble.length
    rw [build_n_models, build_n_datasets]
    simp [expEnsemble.new]
  · unfold expEnsemble.length
    rw [build_n_models, build_n_datasets, profiles_length, build_models_flatten,
      build_datasets_flatten]
    simp [expEnsemble.new]

/-! ### Cross-product order and shared-field lemmas -/

/-- Index formula of the model-major cross-product: entry `i*|ds| + j` is
`f ms[i] ds[j]`. -/
theorem cross_getElem {α β γ : Type} (f : α → β → γ) (ms : List α) (ds : List β)
    (i j : Nat) (hi : i < ms.length) (hj : j < ds.length) :
    ((ms.map (fun m => ds.map (f m))).flatten)[i * ds.length + j]? =
      some (f (ms.get ⟨i, hi⟩) (ds.get ⟨j, hj⟩)) := by
  induction ms generalizing i with
  | nil => exact absurd hi (Nat.not_lt_zero i)
  | cons m rest ih =>
    cases i with
    | zero =>
      simp only [List.map_cons, List.flatten_cons, Nat.zero_mul, Nat.zero_add]
      rw [List.getElem?_append_left (by simpa using hj)]
      simp [List.getElem?_eq_getElem hj, List.get_eq_getElem]
    | succ n =>
      simp only [List.map_cons, List.flatten_cons]
      have hlen : (ds.map (f m)).length ≤ (n + 1) * ds.length + j := by
        rw [List.length_map, Nat.succ_mul]
        calc ds.length ≤ n * ds.length + ds.length := Nat.le_add_left _ _
          _ ≤ n * ds.length + ds.length + j := Nat.le_add_right _ _
      rw [List.getElem?_append_right hlen]
      have harith : (n + 1) * ds.length + j - (ds.map (f m)).length =
          n * ds.length + j := by
        rw [List.length_map, Nat.succ_mul]
        omega
      rw [harith]
      exact ih n (Nat.lt_of_succ_lt_succ hi)

/-- Every yielded profile carries the ensemble's shared metrics, setting,
output directory and overwrite flag. -/
theorem mem_profiles_shared (e : Explib.expEnsemble) (p : expProfile)
    (hp : p ∈ e.profiles) :
    p.metrics = e.metrics ∧ p.setting = e.setting ∧ p.save_dir = e.save_dir ∧
      p.overwrite = e.overwrite := by
  simp only [Explib.expEnsemble.profiles, Explib.expEnsemble.iterOnce,
    List.mem_flatten, List.mem_map] at hp
  obtain ⟨l, ⟨m, hm, rfl⟩, hpl⟩ := hp
  obtain ⟨d, hd, rfl⟩ := List.mem_map.1 hpl
  exact ⟨rfl, rfl, rfl, rfl⟩

/-- C5: traversal order is model-major — the profile at position
`i*|datasets| + j` pairs model `i` with dataset `j` — each pairing wrapped
into a fresh profile carrying the ensemble's shared metrics, setting,
output directory and overwrite flag; and the 2-model-grid × 3-dataset-grid
example has `length() == 6` and yields exactly 6 profiles with pairwise
distinct fingerprints. -/
theorem C5_cross_product_order :
    (∀ (e : Explib.expEnsemble) (i j : Nat) (hi : i < e.models.flatten.length)
        (hj : j < e.datasets.flatten.length),
      e.profiles[i * e.datasets.flatten.length + j]? =
        some { dataset := e.datasets.flatten.get ⟨j, hj⟩
               model := e.models.flatten.get ⟨i, hi⟩
               metrics := e.metrics
               setting := e.setting
               save_dir := e.save_dir
               overwrite := e.overwrite }) ∧
    (∀ (e : Explib.expEnsemble), ∀ p ∈ e.profiles,
      p.metrics = e.metrics ∧ p.setting = e.setting ∧ p.save_dir = e.save_dir ∧
        p.overwrite = e.overwrite) ∧
    (exampleEnsemble.length = 6 ∧ exampleEnsemble.profiles.length = 6 ∧
      (exampleEnsemble.profiles.map expProfile.identity).Nodup) := by
  refine ⟨fun e i j hi hj => cross_getElem _ _ _ i j hi hj,
    fun e p hp => mem_profiles_shared e p hp,
    ⟨by decide, by decide, by decide⟩⟩

/-- Witness for C5: in the example ensemble, position `1*3 + 2` holds the
second model variant paired with the third dataset variant, and the first
yielded profile carries the ensemble's shared metrics list. -/
theorem C5_cross_product_order_witness :
    exampleEnsemble.profiles[1 * exampleEnsemble.datasets.flatten.length + 2]? =
      some { dataset := exampleEnsemble.datasets.flatten.get ⟨2, by decide⟩
             model := exampleEnsemble.models.flatten.get ⟨1, by decide⟩
             metrics := exampleEnsemble.metrics
             setting := exampleEnsemble.setting
             save_dir := exampleEnsemble.save_dir
             overwrite := exampleEnsemble.overwrite } ∧
    ({ dataset := ⟨⟨[("name", "d"), ("n", "1")]⟩⟩
       model := ⟨⟨[("name", "m"), ("lr", "0.1")]⟩⟩
       metrics := [⟨0, ⟨[("name", "acc")]⟩⟩]
       setting := ⟨⟨[("name", "s")]⟩⟩
       save_dir := "out", overwrite := false } : expProfile).metrics =
      exampleEnsemble.metrics :=
  ⟨C5_cross_product_order.1 exampleEnsemble 1 2 (by decide) (by decide),
   (C5_cross_product_order.2.1 exampleEnsemble _ (by decide)).1⟩

/-- Flattening a list of emptied sources yields nothing. -/
theorem flatten_map_nil {α β : Type} (l : List α) :
    (l.map (fun _ => ([] : List β))).flatten = [] := by
  induction l with
  | nil => rfl
  | cons x rest ih => simp [ih]

/-- C9 counterexample: iterating the same unmodified ensemble twice does
NOT repeat the sequence — the first traversal of the one-model,
one-dataset ensemble yields one profile, the second yields none, because
the stored `imap` generators were consumed. -/
theorem C9_reiteration_counterexample :
    pairEnsemble.iterOnce.1 ≠ pairEnsemble.iterOnce.2.iterOnce.1 ∧
    pairEnsemble.iterOnce.1.length = 1 ∧
    pairEnsemble.iterOnce.2.iterOnce.1 = [] :=
  ⟨by decide, by decide, by decide⟩

/-- C9 amended: the first traversal is a function of the ensemble state,
but the ensemble is not re-iterable: after one traversal the stored
model/dataset generators are exhausted, so a second traversal of any
ensemble yields the empty sequence, while `__len__` still reports the
original counter product. -/
theorem C9_second_iteration_empty (e : Explib.expEnsemble) :
    e.iterOnce.2.iterOnce.1 = [] ∧ e.iterOnce.2.length = e.length := by
  constructor
  · simp [Explib.expEnsemble.iterOnce, flatten_map_nil]
  · rfl

/-- C10: every profile yielded by one ensemble references the very same
metric instances — the ensemble's shared metrics list, not per-profile
copies — so a value recorded through one profile's metric is visible
through the same instance in every sibling profile's list. -/
theorem C10_shared_metric_instances :
    (∀ (e : Explib.expEnsemble), ∀ p ∈ e.profiles, p.metrics = e.metrics) ∧
    (∀ (e : Explib.expEnsemble) (p1 p2 : expProfile), p1 ∈ e.profiles → p2 ∈ e.profiles →
      p1.metrics = p2.metrics ∧
      ∀ m ∈ p1.metrics, m ∈ p2.metrics ∧
        ∀ (h : MetricHeap) (v : Int), recordValue h m.id v m.id = h m.id ++ [v]) := by
  refine ⟨fun e p hp => (mem_profiles_shared e p hp).1, fun e p1 p2 h1 h2 => ?_⟩
  have e1 := (mem_profiles_shared e p1 h1).1
  have e2 := (mem_profiles_shared e p2 h2).1
  refine ⟨e1.trans e2.symm, fun m hm => ⟨?_, fun h v => ?_⟩⟩
  · rw [e2, ← e1]; exact hm
  · simp [recordValue]

/-- Witness for C10: the first and last profiles of the example ensemble
share the metric instance list; recording value 7 through the shared
metric id 0 appends it to the single shared values list. -/
theorem C10_shared_metric_instances_witness :
    ({ dataset := ⟨⟨[("name", "d"), ("n", "1")]⟩⟩
       model := ⟨⟨[("name", "m"), ("lr", "0.1")]⟩⟩
       metrics := [⟨0, ⟨[("name", "acc")]⟩⟩]
       setting := ⟨⟨[("name", "s")]⟩⟩
       save_dir := "out", overwrite := false } : expProfile).metrics =
      ({ dataset := ⟨⟨[("name", "d"), ("n", "3")]⟩⟩
         model := ⟨⟨[("name", "m"), ("lr", "0.2")]⟩⟩
         metrics := [⟨0, ⟨[("name", "acc")]⟩⟩]
         setting := ⟨⟨[("name", "s")]⟩⟩
         save_dir := "out", overwrite := false } : expProfile).metrics ∧
    recordValue (fun _ => []) 0 7 0 = [7] := by
  have h := C10_shared_metric_instances.2 exampleEnsemble
    { dataset := ⟨⟨[("name", "d"), ("n", "1")]⟩⟩
      model := ⟨⟨[("name", "m"), ("lr", "0.1")]⟩⟩
      metrics := [⟨0, ⟨[("name", "acc")]⟩⟩]
      setting := ⟨⟨[("name", "s")]⟩⟩
      save_dir := "out", overwrite := false }
    { dataset := ⟨⟨[("name", "d"), ("n", "3")]⟩⟩
      model := ⟨⟨[("name", "m"), ("lr", "0.2")]⟩⟩
      metrics := [⟨0, ⟨[("name", "acc")]⟩⟩]
      setting := ⟨⟨[("name", "s")]⟩⟩
      save_dir := "out", overwrite := false }
    (by decide) (by decide)
  refine ⟨h.1, ?_⟩
  have hv := (h.2 ⟨0, ⟨[("name", "acc")]⟩⟩ (by decide)).2 (fun _ => []) 7
  simpa using hv

/-! ### Worker-pool isolation -/

/-- Every dispatched task begins and completes, whatever the behaviour of
the profile runs: per-task failures never abort siblings and the pool run
produces its full trace. -/
theorem runM_all_tasks (beh : expProfile → Except String Unit) (pool : expPool)
    (i : Nat) (hi : i < pool.flatTasks.length) :
    PoolEv.beginEv ("Exp " ++ fmt3 i ++ " Begins...") ∈ pool.runM beh ∧
    PoolEv.doneEv ("Exp " ++ fmt3 i ++ " Done!") ∈ pool.runM beh := by
  have hienum : i < pool.flatTasks.enum.length := by simpa using hi
  have hmem : (i, pool.flatTasks.get ⟨i, hi⟩) ∈ pool.flatTasks.enum := by
    have hg := List.getElem_enum pool.flatTasks i hienum
    have := List.getElem_mem hienum
    rw [hg] at this
    simpa [List.get_eq_getElem] using this
  have hchunk : wrapperM beh i (pool.flatTasks.get ⟨i, hi⟩) ∈
      pool.flatTasks.enum.map (fun ip => wrapperM beh ip.1 ip.2) :=
    List.mem_map.2 ⟨(i, pool.flatTasks.get ⟨i, hi⟩), hmem, rfl⟩
  constructor
  · exact List.mem_flatten.2 ⟨_, hchunk, by
      rcases beh (pool.flatTasks.get ⟨i, hi⟩) with e | u <;> simp [wrapperM]⟩
  · exact List.mem_flatten.2 ⟨_, hchunk, by
      rcases beh (pool.flatTasks.get ⟨i, hi⟩) with e | u <;> simp [wrapperM]⟩

/-- C3 (code-bug evidence): with the middle of three tasks raising, the
pool trace still shows every task beginning and completing — the
exception is caught inside the wrapper and `run` returns its full trace —
but the caught exception is logged as the literal string `"Exp %3d:"`:
the task's index is never interpolated, because
`logger.error('Exp %3d:', exc_info=1)` passes no argument for the format
specifier, while the neighbouring begin/done logs do interpolate it. -/
theorem C3_isolation_literal_error_log :
    expPool.runM failOnBad examplePool =
      [.beginEv "Exp   0 Begins...", .doneEv "Exp   0 Done!",
       .beginEv "Exp   1 Begins...", .errorEv "Exp %3d:", .doneEv "Exp   1 Done!",
       .beginEv "Exp   2 Begins...", .doneEv "Exp   2 Done!"] := by
  decide
